import Mathlib

/-!
Shallow embedding of `src/models/pnn.py` (Product-based Neural Network,
class `PNN(BaseModel)`), together with proofs of the specification claims.

The file embeds:
 * the Python expression `int(n * (n - 1) / 2)` (line 49), including the
   binary64 rounding performed by Python's true division `/`;
 * the constructor `PNN.__init__` (lines 30-70) as an `Except`-valued
   function over an argument record, distinguishing errors raised by
   this file from errors raised inside the external library;
 * the method `PNN.forward` (lines 72-110) as a builder of symbolic
   tensor expressions, with an explicit model-state pass so that frame
   properties are expressible;
 * a column-count (shape) semantics for the symbolic tensor expressions,
   following the shape contracts of the external layers.

External code (`deepctr_torch` layers, `torch`) is modelled only through
its interface contracts.  The repository's own `BaseModel`
(`src/models/basemodel.py`) is not under `src/`; the parts of it that the
claims need are modelled from the spec and marked as such.
-/

/-! ## Python arithmetic: `int(n * (n - 1) / 2)` (pnn.py line 49) -/

/-- Base-2 logarithm on `Nat`, computed with explicit structural fuel so
that it reduces in the kernel.  `log2Fuel fuel n` equals `⌊log₂ n⌋`
whenever `fuel` is large enough (in particular when `fuel = n`). -/
def log2Fuel : Nat → Nat → Nat
  | 0, _ => 0
  | fuel + 1, n => if 2 ≤ n then log2Fuel fuel (n / 2) + 1 else 0

/-- Floor base-2 logarithm (0 on inputs below 2). -/
def pyLog2 (n : Nat) : Nat := log2Fuel n n

/-- Rounding of a nonnegative integer to the nearest IEEE-754 binary64
value (53-bit significand, round-to-nearest, ties-to-even), returned as
the integer the resulting float represents.  Integers below `2 ^ 53` are
exactly representable; larger ones are rounded to a multiple of
`2 ^ (⌊log₂ m⌋ - 52)`.  This models the value CPython produces for a
correctly rounded integer quotient, as `int / int` true division is. -/
def floatRound53 (m : Nat) : Nat :=
  if m < 2 ^ 53 then m
  else
    let e := pyLog2 m - 52
    let q := m / 2 ^ e
    let r := m % 2 ^ e
    let half := 2 ^ (e - 1)
    if r < half then q * 2 ^ e
    else if half < r then (q + 1) * 2 ^ e
    else if q % 2 = 0 then q * 2 ^ e else (q + 1) * 2 ^ e

/-- Python `int(n * (n - 1) / 2)` for a nonnegative integer `n`
(pnn.py line 49, `num_pairs`).  `n * (n - 1)` is even, so the exact
rational quotient is the natural number `n * (n - 1) / 2`; Python's `/`
rounds that integer to binary64, and `int` truncates the (integral)
float back, which `floatRound53` captures. -/
def pyNumPairs (n : Nat) : Nat := floatRound53 (n * (n - 1) / 2)

/-! ## Errors -/

/-- Where a raised Python exception originates: a `raise` (or failing
operation) executed by code of `pnn.py` itself, or one executed inside
the external library. -/
inductive ErrOrigin where
  | thisFile
  | external
deriving DecidableEq, Repr

/-- A Python exception, with its origin, class name and message. -/
structure PyError where
  origin : ErrOrigin
  kind : String
  msg : String
deriving DecidableEq, Repr

/-- The `ValueError` raised at pnn.py lines 39-40 when `kernel_type` is
not one of `mat`, `vec`, `num`. -/
def kernelTypeError : PyError :=
  { origin := ErrOrigin.thisFile, kind := "ValueError",
    msg := "kernel_type must be mat,vec or num" }

/-- The `TypeError` the interpreter raises at pnn.py line 77 when
evaluating a membership test on `None` (`self.flag` left at its
default). -/
def flagNoneTypeError : PyError :=
  { origin := ErrOrigin.thisFile, kind := "TypeError",
    msg := "argument of type NoneType is not iterable" }

/-- The `ValueError` the external `deepctr_torch.layers.DNN` constructor
raises when `hidden_units` is empty (external-library contract, reached
from pnn.py line 60 before the indexing at line 65). -/
def emptyHiddenUnitsError : PyError :=
  { origin := ErrOrigin.external, kind := "ValueError",
    msg := "hidden_units is empty" }

/-! ## Constructor arguments and model state -/

/-- Modelled from the spec: the interface of `dnn_feature_columns` as the
absent `BaseModel` (`src/models/basemodel.py`, imported at pnn.py line 4
but not under `src/`) exposes it — "the actual feature embedding
management ... live[s] in the external library (`BaseModel`, ...)".
`sparseFieldCount` is `compute_input_dim(fc, include_dense=False,
feature_group=True)` (the number of feature groups), `embeddingSize` is
`self.embedding_size`, and `denseInputDim` is the dense part of
`compute_input_dim(fc)`. -/
structure FeatureColumnsInfo where
  sparseFieldCount : Nat
  embeddingSize : Nat
  denseInputDim : Nat
deriving DecidableEq, Repr

/-- The arguments of `PNN.__init__` (pnn.py lines 30-33) that the claims
quantify over.  Purely numeric regularization/seed arguments are inert
in this file and omitted; `flag` is the `flag=None` keyword stored by
the base class and read at line 77. -/
structure PNNArgs where
  dnn_feature_columns : FeatureColumnsInfo
  dnn_hidden_units : List Nat
  dnn_activation : String
  use_inner : Bool
  use_outter : Bool
  kernel_type : String
  task : String
  device : String
  flag : Option String
deriving DecidableEq, Repr

/-- The state of a constructed `PNN` instance: the attributes set by
`PNN.__init__` (and, modelled from the spec, the `flag` attribute stored
by the absent `BaseModel.__init__`). -/
structure PNNModel where
  use_inner : Bool
  use_outter : Bool
  kernel_type : String
  task : String
  flag : Option String
  numInputs : Nat
  embeddingSize : Nat
  denseDim : Nat
  productOutDim : Nat
  dnn_hidden_units : List Nat
  dnnLinearOutDim : Nat
deriving DecidableEq, Repr

/-- `PNN.__init__` (pnn.py lines 30-70).

The `super().__init__` call (line 35) runs the repository's `BaseModel`,
absent from `src/`; modelled from the spec as a total black box that
stores the `flag` argument as `self.flag`.  Then, in source order:
the `kernel_type` validation (lines 39-40, the only `raise` in the
file); the attribute assignments (lines 42-45); `num_pairs` and the
`product_out_dim` accumulation under the two toggles (lines 47-58; the
`InnerProductLayer`/`OutterProductLayer` constructions are external and
modelled as total); the external `DNN` construction (line 60), which
rejects an empty `hidden_units` list (deepctr_torch contract); and the
indexing `dnn_hidden_units[-1]` (line 65), which would raise an
`IndexError` in this file if it were ever reached with an empty list. -/
def PNN.init (a : PNNArgs) : Except PyError PNNModel :=
  if a.kernel_type ∈ (["mat", "vec", "num"] : List String) then
    if a.dnn_hidden_units.isEmpty then
      Except.error emptyHiddenUnitsError
    else
      match a.dnn_hidden_units.getLast? with
      | none =>
          Except.error
            { origin := ErrOrigin.thisFile, kind := "IndexError",
              msg := "tuple index out of range" }
      | some _last =>
          Except.ok
            { use_inner := a.use_inner
              use_outter := a.use_outter
              kernel_type := a.kernel_type
              task := a.task
              flag := a.flag
              numInputs := a.dnn_feature_columns.sparseFieldCount
              embeddingSize := a.dnn_feature_columns.embeddingSize
              denseDim := a.dnn_feature_columns.denseInputDim
              productOutDim :=
                (if a.use_inner then pyNumPairs a.dnn_feature_columns.sparseFieldCount else 0) +
                (if a.use_outter then pyNumPairs a.dnn_feature_columns.sparseFieldCount else 0)
              dnn_hidden_units := a.dnn_hidden_units
              dnnLinearOutDim := 1 }
  else
    Except.error kernelTypeError

/-! ## Forward pass (pnn.py lines 72-110) -/

/-- Python string membership `needle in hay`: `startsWithL needle hay`
is true when `needle` is an initial segment of `hay`. -/
def startsWithL : List Char → List Char → Bool
  | [], _ => true
  | _ :: _, [] => false
  | a :: as, b :: bs => a == b && startsWithL as bs

/-- Whether `needle` occurs as a contiguous run inside `hay`. -/
def subListL (needle : List Char) : List Char → Bool
  | [] => needle.isEmpty
  | c :: rest => startsWithL needle (c :: rest) || subListL needle rest

/-- Python `needle in hay` on strings: contiguous substring test. -/
def pyInStr (needle hay : String) : Bool := subListL needle.data hay.data

/-- The list `sparse_embedding_list` of per-field embedding tensors, as
a symbolic value: either the list produced by
`input_from_feature_columns` (line 74), or the result of the
meta-transformation block (lines 78-80: concatenate, transform, split
back into single-field slices). -/
inductive SparseList where
  | fromColumns
  | metaTransformed (orig : SparseList)
deriving DecidableEq, Repr

/-- Symbolic tensor expressions: one constructor per tensor operation
performed in `PNN.forward`, each recording exactly the operand
structure of the corresponding source line. -/
inductive TExpr where
  | concatFun (s : SparseList)
  | flattenFrom1 (t : TExpr)
  | innerProductOf (s : SparseList)
  | outterProductOf (s : SparseList)
  | catDim1 (parts : List TExpr)
  | combinedDnnInput (product : TExpr)
  | dnnApply (t : TExpr)
  | dnnLinearApply (t : TExpr)
  | outApply (t : TExpr)
deriving Repr

/-- Lines 74-80 of `forward`: obtain `sparse_embedding_list`, then run
the membership test `'metatrans' in self.flag`.  When `self.flag` is
`None` (the constructor default) the membership test itself raises a
`TypeError`; when it is a string, Python's `in` is the substring test,
and the list is replaced by its meta-transformed version exactly when
the test succeeds.  (`meta_transformation` lives in the absent
`BaseModel`; modelled from the spec as the opaque `metaTransformed`
constructor.) -/
def metaStep (m : PNNModel) : Except PyError SparseList :=
  match m.flag with
  | none => Except.error flagNoneTypeError
  | some f =>
      if pyInStr "metatrans" f then
        Except.ok (SparseList.metaTransformed SparseList.fromColumns)
      else
        Except.ok SparseList.fromColumns

/-- Lines 83-101 of `forward`: the `linear_signal` (flatten of
`concat_fun`), the guarded `inner_product` (flatten of the inner-product
layer) and `outer_product` (outer-product layer, not flattened), and the
four-way `if`/`elif`/`elif`/`else` that concatenates the enabled signals
into `product_layer`. -/
def productLayer (m : PNNModel) (s : SparseList) : TExpr :=
  let linear_signal := TExpr.flattenFrom1 (TExpr.concatFun s)
  let inner_product := TExpr.flattenFrom1 (TExpr.innerProductOf s)
  let outer_product := TExpr.outterProductOf s
  if m.use_outter && m.use_inner then
    TExpr.catDim1 [linear_signal, inner_product, outer_product]
  else if m.use_outter then
    TExpr.catDim1 [linear_signal, outer_product]
  else if m.use_inner then
    TExpr.catDim1 [linear_signal, inner_product]
  else
    linear_signal

/-- `PNN.forward` (pnn.py lines 72-110), with the model state threaded
explicitly: the method body contains no attribute assignment, so the
returned state is the input state.  The pipeline after the sparse list
is line-by-line: `combined_dnn_input` (103), `self.dnn` (104),
`self.dnn_linear` (105), `logit = dnn_logit` (106), `self.out` (108). -/
def PNN.forward (m : PNNModel) : Except PyError (PNNModel × TExpr) :=
  match metaStep m with
  | Except.error e => Except.error e
  | Except.ok sparse_embedding_list =>
      let product_layer := productLayer m sparse_embedding_list
      let dnn_input := TExpr.combinedDnnInput product_layer
      let dnn_output := TExpr.dnnApply dnn_input
      let dnn_logit := TExpr.dnnLinearApply dnn_output
      let logit := dnn_logit
      let y_pred := TExpr.outApply logit
      Except.ok (m, y_pred)

/-! ## Shape semantics for the symbolic expressions

Every operation in the pipeline acts per sample and preserves the batch
dimension (contract of the external layers), so a shape is `(n, cols)`
with `n` the number of rows of the input batch `X` and `cols` computed
structurally. -/

mutual

/-- Per-sample element count (number of columns after flattening to two
dimensions) of a symbolic expression, given the model configuration.
External contracts: each field embedding is `(n, 1, E)`, so the
concatenation of the `F` fields holds `F * E` values per sample; the
inner and outer product layers emit one value per feature pair; `DNN`
maps to its last hidden width; `dnn_linear = nn.Linear(hidden[-1], 1)`
maps to its `out_features`; the output activation `self.out` is
element-wise. -/
def TExpr.cols (m : PNNModel) : TExpr → Nat
  | TExpr.concatFun _ => m.numInputs * m.embeddingSize
  | TExpr.flattenFrom1 t => t.cols m
  | TExpr.innerProductOf _ => pyNumPairs m.numInputs
  | TExpr.outterProductOf _ => pyNumPairs m.numInputs
  | TExpr.catDim1 parts => TExpr.colsSum m parts
  | TExpr.combinedDnnInput p => p.cols m + m.denseDim
  | TExpr.dnnApply _ => (m.dnn_hidden_units.getLast?).getD 0
  | TExpr.dnnLinearApply _ => m.dnnLinearOutDim
  | TExpr.outApply t => t.cols m

/-- Sum of `TExpr.cols` over the parts of a `torch.cat`. -/
def TExpr.colsSum (m : PNNModel) : List TExpr → Nat
  | [] => 0
  | t :: ts => t.cols m + TExpr.colsSum m ts

end

/-- The shape of a pipeline expression on a batch of `n` samples: `n`
rows (all operations are batch-preserving) and `TExpr.cols` columns. -/
def TExpr.shapeOn (m : PNNModel) (n : Nat) (t : TExpr) : Nat × Nat :=
  (n, t.cols m)

/-! ## The pipeline as the spec words it

The following definitions transcribe the spec sentence "feature columns
→ embeddings → optional meta-transformation → concatenation of
linear/inner-product/outer-product signals → dense network → linear
output → activation → prediction" stage by stage, to be compared with
`PNN.forward` as translated from the source. -/

/-- Modelled from the spec: the embedding-lookup stage ("feature columns
→ embeddings"). -/
def specEmbedStage : SparseList := SparseList.fromColumns

/-- Modelled from the spec: the "optional meta-transformation" stage —
applied exactly when the flag names it, failing on a flag that supports
no membership test. -/
def specMetaStage (m : PNNModel) (s : SparseList) : Except PyError SparseList :=
  match m.flag with
  | none => Except.error flagNoneTypeError
  | some f =>
      Except.ok (if pyInStr "metatrans" f then SparseList.metaTransformed s else s)

/-- Modelled from the spec: the "concatenation of
linear/inner-product/outer-product signals" stage — the flattened
embeddings joined with whichever product signals are enabled, the linear
signal standing alone when neither product is. -/
def specConcatStage (m : PNNModel) (s : SparseList) : TExpr :=
  let signals :=
    [TExpr.flattenFrom1 (TExpr.concatFun s)] ++
    (if m.use_inner then [TExpr.flattenFrom1 (TExpr.innerProductOf s)] else []) ++
    (if m.use_outter then [TExpr.outterProductOf s] else [])
  match signals with
  | [single] => single
  | parts => TExpr.catDim1 parts

/-- Modelled from the spec: the "dense network" stage, fed with the
product layer combined with the dense values. -/
def specDenseStage (p : TExpr) : TExpr :=
  TExpr.dnnApply (TExpr.combinedDnnInput p)

/-- Modelled from the spec: the "linear output → activation →
prediction" stage. -/
def specOutputStage (t : TExpr) : TExpr :=
  TExpr.outApply (TExpr.dnnLinearApply t)

/-- Modelled from the spec: the whole pipeline, the stages composed in
the spec's order. -/
def specPipeline (m : PNNModel) : Except PyError (PNNModel × TExpr) :=
  match specMetaStage m specEmbedStage with
  | Except.error e => Except.error e
  | Except.ok s =>
      Except.ok (m, specOutputStage (specDenseStage (specConcatStage m s)))

/-- The top-level summands of a `product_layer` value: the concatenated
parts when it is a `torch.cat`, or the expression itself alone. -/
def prodParts : TExpr → List TExpr
  | TExpr.catDim1 parts => parts
  | t => [t]

/-! ## Concrete instances used by the witnesses -/

/-- A concrete feature-column configuration: 3 sparse feature groups of
embedding size 4 and one dense value. -/
def fcEx : FeatureColumnsInfo :=
  { sparseFieldCount := 3, embeddingSize := 4, denseInputDim := 1 }

/-- A concrete valid constructor call. -/
def argsEx : PNNArgs :=
  { dnn_feature_columns := fcEx
    dnn_hidden_units := [128, 128]
    dnn_activation := "relu"
    use_inner := true
    use_outter := false
    kernel_type := "mat"
    task := "binary"
    device := "cpu"
    flag := some "base" }

/-- The model `PNN.init argsEx` constructs. -/
def modelEx : PNNModel :=
  { use_inner := true
    use_outter := false
    kernel_type := "mat"
    task := "binary"
    flag := some "base"
    numInputs := 3
    embeddingSize := 4
    denseDim := 1
    productOutDim := 3
    dnn_hidden_units := [128, 128]
    dnnLinearOutDim := 1 }

/-- A concrete constructor call whose hidden-units list is empty. -/
def argsEmptyHidden : PNNArgs :=
  { argsEx with dnn_hidden_units := [] }

/-- A concrete constructor call with an unsupported kernel type and the
outer product disabled. -/
def argsBadKernel : PNNArgs :=
  { argsEx with kernel_type := "poly", use_outter := false }

/-- A concrete model whose flag was left at the default `None`. -/
def modelFlagNone : PNNModel :=
  { modelEx with flag := none }

/-- The tail of the forward pipeline (pnn.py lines 103-108) applied to a
given `product_layer`: `combined_dnn_input`, `self.dnn`,
`self.dnn_linear`, `self.out`. -/
def pipelineTail (m : PNNModel) (s : SparseList) : TExpr :=
  TExpr.outApply (TExpr.dnnLinearApply (TExpr.dnnApply
    (TExpr.combinedDnnInput (productLayer m s))))

/-- The prediction expression `PNN.forward` builds for `modelEx`. -/
def yPredEx : TExpr :=
  TExpr.outApply (TExpr.dnnLinearApply (TExpr.dnnApply (TExpr.combinedDnnInput
    (TExpr.catDim1
      [TExpr.flattenFrom1 (TExpr.concatFun SparseList.fromColumns),
       TExpr.flattenFrom1 (TExpr.innerProductOf SparseList.fromColumns)]))))

/-- A concrete model whose flag names the meta-transformation. -/
def modelMeta : PNNModel := { modelEx with flag := some "pnn-metatrans" }

/-- A concrete model with both product toggles disabled. -/
def modelNoProd : PNNModel := { modelEx with use_inner := false, use_outter := false }

example : PNN.init argsEx = Except.ok modelEx := by rfl
example : PNN.init argsEmptyHidden = Except.error emptyHiddenUnitsError := by rfl
example : PNN.init argsBadKernel = Except.error kernelTypeError := by rfl
example : PNN.forward modelEx = Except.ok (modelEx, yPredEx) := by rfl

/-! ## Claims -/

/-- C1: constructing a PNN fails with the kernel-type `ValueError` if
and only if `kernel_type` is not one of `mat`, `vec`, `num`; for every
`kernel_type` in that set the kernel-type validation passes (the
constructor never produces that error), regardless of the other
arguments. -/
theorem claim_C1_kernel_type_validation (a : PNNArgs) :
    PNN.init a = Except.error kernelTypeError ↔
      a.kernel_type ∉ (["mat", "vec", "num"] : List String) := by
  unfold PNN.init
  by_cases hk : a.kernel_type ∈ (["mat", "vec", "num"] : List String)
  · rw [if_pos hk]
    simp only [hk, not_true_eq_false, iff_false]
    by_cases he : a.dnn_hidden_units.isEmpty
    · rw [if_pos he]
      simp [emptyHiddenUnitsError, kernelTypeError]
    · rw [if_neg he]
      cases hl : a.dnn_hidden_units.getLast? with
      | none => simp [kernelTypeError]
      | some x => simp
  · rw [if_neg hk]
    simp [hk]

/-- C9: the kernel-type validation is unconditional: an invalid
`kernel_type` raises the `ValueError` even when `use_outter` is false,
although only the outer-product layer ever uses the kernel type. -/
theorem claim_C9_kernel_validation_unconditional (a : PNNArgs)
    (_houtter : a.use_outter = false)
    (hk : a.kernel_type ∉ (["mat", "vec", "num"] : List String)) :
    PNN.init a = Except.error kernelTypeError := by
  unfold PNN.init
  rw [if_neg hk]

/-- Witness for C9: a concrete constructor call with `use_outter =
false` and kernel type `poly` raises the kernel-type `ValueError`. -/
theorem claim_C9_witness :
    PNN.init argsBadKernel = Except.error kernelTypeError :=
  claim_C9_kernel_validation_unconditional argsBadKernel rfl (by decide)

/-- C6: for a valid `kernel_type`, `pnn.py` raises no error of its own:
any constructor failure originates in the external library (the `DNN`
layer rejecting an empty `hidden_units` list before the file's own
`dnn_hidden_units[-1]` indexing can run). -/
theorem claim_C6_no_other_own_validation (a : PNNArgs) (e : PyError)
    (hk : a.kernel_type ∈ (["mat", "vec", "num"] : List String))
    (h : PNN.init a = Except.error e) :
    e.origin = ErrOrigin.external := by
  unfold PNN.init at h
  rw [if_pos hk] at h
  by_cases he : a.dnn_hidden_units.isEmpty
  · rw [if_pos he] at h
    injection h with h
    rw [← h]
    rfl
  · rw [if_neg he] at h
    cases hl : a.dnn_hidden_units.getLast? with
    | none =>
        rw [List.getLast?_eq_none_iff] at hl
        rw [hl] at he
        simp at he
    | some x =>
        rw [hl] at h
        cases h

/-- Witness for C6: the empty-hidden-units failure of a concrete valid
call originates in the external library. -/
theorem claim_C6_witness : emptyHiddenUnitsError.origin = ErrOrigin.external :=
  claim_C6_no_other_own_validation argsEmptyHidden emptyHiddenUnitsError (by decide) rfl

/-- C8: when the model's `flag` attribute was left at the constructor
default `None`, every forward pass fails before producing a prediction:
the membership test at pnn.py line 77 raises a `TypeError`. -/
theorem claim_C8_flag_none_type_error (m : PNNModel) (h : m.flag = none) :
    PNN.forward m = Except.error flagNoneTypeError := by
  unfold PNN.forward metaStep
  rw [h]

/-- Witness for C8: the forward pass of a concrete flag-`None` model
raises the `TypeError`. -/
theorem claim_C8_witness :
    PNN.forward modelFlagNone = Except.error flagNoneTypeError :=
  claim_C8_flag_none_type_error modelFlagNone rfl

/-- C7: the forward pass mutates nothing: whenever it succeeds, the
model state it returns is exactly the model state it was given (the
body of `PNN.forward` contains no attribute assignment). -/
theorem claim_C7_forward_preserves_state (m : PNNModel)
    (p : PNNModel × TExpr) (h : PNN.forward m = Except.ok p) : p.1 = m := by
  unfold PNN.forward at h
  cases hms : metaStep m with
  | error e =>
      rw [hms] at h
      cases h
  | ok s =>
      rw [hms] at h
      injection h with h
      rw [← h]

/-- Witness for C7: a successful concrete forward pass returns its
input model state unchanged. -/
theorem claim_C7_witness : (modelEx, yPredEx).1 = modelEx :=
  claim_C7_forward_preserves_state modelEx (modelEx, yPredEx) rfl

/-- C5: the meta-transformation is applied if and only if the string
`metatrans` occurs in the model's flag: with it, the sparse embedding
list fed to the signals is the meta-transformed one; without it, the
list from the feature columns passes through unchanged. -/
theorem claim_C5_meta_transformation_optional (m : PNNModel) (f : String)
    (h : m.flag = some f) :
    (pyInStr "metatrans" f = true →
      PNN.forward m =
        Except.ok (m, pipelineTail m (SparseList.metaTransformed SparseList.fromColumns))) ∧
    (pyInStr "metatrans" f = false →
      PNN.forward m = Except.ok (m, pipelineTail m SparseList.fromColumns)) := by
  constructor <;> intro hin <;>
    simp [PNN.forward, metaStep, h, hin, pipelineTail]

/-- Witness for C5: a flag containing `metatrans` routes through the
meta-transformed list, and one without it passes the original list. -/
theorem claim_C5_witness :
    PNN.forward modelMeta =
      Except.ok (modelMeta, pipelineTail modelMeta (SparseList.metaTransformed SparseList.fromColumns)) ∧
    PNN.forward modelEx = Except.ok (modelEx, pipelineTail modelEx SparseList.fromColumns) :=
  ⟨(claim_C5_meta_transformation_optional modelMeta "pnn-metatrans" rfl).1 rfl,
   (claim_C5_meta_transformation_optional modelEx "base" rfl).2 rfl⟩

/-- C3: the forward pass is exactly the spec's pipeline in the spec's
order: embeddings from the feature columns, the optional
meta-transformation, the concatenation of the enabled signals, the
dense network on the combined input, the final linear layer, and the
output activation. -/
theorem claim_C3_forward_pipeline_order (m : PNNModel) :
    PNN.forward m = specPipeline m := by
  unfold PNN.forward specPipeline metaStep specMetaStage specEmbedStage
  cases hfl : m.flag with
  | none => rfl
  | some f =>
      cases hin : pyInStr "metatrans" f <;>
        cases hi : m.use_inner <;>
          cases ho : m.use_outter <;>
            simp [hin, hi, ho, productLayer, specConcatStage, specDenseStage,
              specOutputStage]

/-- C4: the product terms are selected exactly by the toggles: the
(flattened) inner-product signal is a summand of the product layer iff
`use_inner`, the outer-product signal iff `use_outter`, with both off
the product layer is the linear signal alone; and the product output
dimension the constructor adds is `num_pairs` per enabled toggle. -/
theorem claim_C4_product_terms_by_toggles :
    (∀ (m : PNNModel) (s : SparseList),
      (TExpr.flattenFrom1 (TExpr.innerProductOf s) ∈ prodParts (productLayer m s) ↔
        m.use_inner = true) ∧
      (TExpr.outterProductOf s ∈ prodParts (productLayer m s) ↔
        m.use_outter = true) ∧
      (m.use_inner = false → m.use_outter = false →
        productLayer m s = TExpr.flattenFrom1 (TExpr.concatFun s))) ∧
    (∀ (a : PNNArgs) (m : PNNModel), PNN.init a = Except.ok m →
      m.productOutDim =
        pyNumPairs a.dnn_feature_columns.sparseFieldCount *
          ((if a.use_inner then 1 else 0) + (if a.use_outter then 1 else 0))) := by
  constructor
  · intro m s
    refine ⟨?_, ?_, ?_⟩ <;>
      cases hi : m.use_inner <;>
        cases ho : m.use_outter <;>
          simp [productLayer, prodParts, hi, ho]
  · intro a m h
    unfold PNN.init at h
    by_cases hk : a.kernel_type ∈ (["mat", "vec", "num"] : List String)
    · rw [if_pos hk] at h
      by_cases he : a.dnn_hidden_units.isEmpty
      · rw [if_pos he] at h
        cases h
      · rw [if_neg he] at h
        cases hl : a.dnn_hidden_units.getLast? with
        | none =>
            rw [hl] at h
            cases h
        | some x =>
            rw [hl] at h
            injection h with h
            rw [← h]
            cases a.use_inner <;> cases a.use_outter <;> simp [mul_two]
    · rw [if_neg hk] at h
      cases h

/-- Witness for C4: at concrete models, the inner signal is present
exactly per the toggle, the toggles-off product layer is the bare
linear signal, and the constructed product output dimension is
`num_pairs` times the number of enabled toggles. -/
theorem claim_C4_witness :
    (TExpr.flattenFrom1 (TExpr.innerProductOf SparseList.fromColumns) ∈
        prodParts (productLayer modelEx SparseList.fromColumns) ↔
      modelEx.use_inner = true) ∧
    (modelNoProd.use_inner = false → modelNoProd.use_outter = false →
      productLayer modelNoProd SparseList.fromColumns =
        TExpr.flattenFrom1 (TExpr.concatFun SparseList.fromColumns)) ∧
    modelEx.productOutDim =
      pyNumPairs argsEx.dnn_feature_columns.sparseFieldCount *
        ((if argsEx.use_inner then 1 else 0) + (if argsEx.use_outter then 1 else 0)) :=
  ⟨(claim_C4_product_terms_by_toggles.1 modelEx SparseList.fromColumns).1,
   (claim_C4_product_terms_by_toggles.1 modelNoProd SparseList.fromColumns).2.2,
   claim_C4_product_terms_by_toggles.2 argsEx modelEx rfl⟩

/-- C2: a successful forward pass of a constructed model produces a
tensor of batch-size rows and one column on every batch of `n` samples:
the final linear layer maps the last hidden width to a single output
and the output activation preserves that shape. -/
theorem claim_C2_output_shape (a : PNNArgs) (m : PNNModel)
    (p : PNNModel × TExpr) (n : Nat)
    (hi : PNN.init a = Except.ok m) (hf : PNN.forward m = Except.ok p) :
    TExpr.shapeOn m n p.2 = (n, 1) := by
  have hd : m.dnnLinearOutDim = 1 := by
    unfold PNN.init at hi
    by_cases hk : a.kernel_type ∈ (["mat", "vec", "num"] : List String)
    · rw [if_pos hk] at hi
      by_cases he : a.dnn_hidden_units.isEmpty
      · rw [if_pos he] at hi
        cases hi
      · rw [if_neg he] at hi
        cases hl : a.dnn_hidden_units.getLast? with
        | none =>
            rw [hl] at hi
            cases hi
        | some x =>
            rw [hl] at hi
            injection hi with hi
            rw [← hi]
    · rw [if_neg hk] at hi
      cases hi
  unfold PNN.forward at hf
  cases hms : metaStep m with
  | error e =>
      rw [hms] at hf
      cases hf
  | ok s =>
      rw [hms] at hf
      injection hf with hf
      rw [← hf]
      simp [TExpr.shapeOn, TExpr.cols, hd]

/-- Witness for C2: the concrete constructed model's forward output has
shape `(5, 1)` on a batch of 5 samples. -/
theorem claim_C2_witness : TExpr.shapeOn modelEx 5 (modelEx, yPredEx).2 = (5, 1) :=
  claim_C2_output_shape argsEx modelEx (modelEx, yPredEx) 5 rfl rfl

/-- C10 counterexample: Python's `int(n * (n - 1) / 2)` is not exact
for every nonnegative `n`: at `n = 134217730` the true division rounds
to binary64 and the result is one less than `n * (n - 1) / 2`. -/
theorem claim_C10_counterexample :
    pyNumPairs 134217730 ≠ 134217730 * (134217730 - 1) / 2 := by decide

/-- C10 (amended): whenever the exact pair count `n * (n - 1) / 2` is
below `2 ^ 53`, the binary64 value of the true division is exact and
`int` truncation loses nothing, so `int(n * (n - 1) / 2)` equals
`n * (n - 1) / 2`. -/
theorem claim_C10_num_pairs_exact_below_2_53 (n : Nat)
    (h : n * (n - 1) / 2 < 2 ^ 53) :
    pyNumPairs n = n * (n - 1) / 2 := by
  unfold pyNumPairs floatRound53
  rw [if_pos h]

/-- Witness for C10: at `n = 3` the computed pair count is the exact
value 3. -/
theorem claim_C10_witness :
    3 * (3 - 1) / 2 < 2 ^ 53 ∧ pyNumPairs 3 = 3 * (3 - 1) / 2 :=
  ⟨by decide, claim_C10_num_pairs_exact_below_2_53 3 (by decide)⟩
